import Mathlib

/-!
Shallow embedding of the Cloudflare Tunnel provisioning workflow of the
n8n local installer (packages/installer/src/services/cloudflare.ts,
packages/installer/src/commands/install.ts and the uninstall command).

Remote behaviour is modelled by an environment ("oracle") that fixes, for
each endpoint the run touches, either a transport failure or the JSON
envelope `{success, errors, messages, result}` that the endpoint returns.
The service methods are translated as pure functions of that environment,
threading the service's cached account id, the set of remotely existing
tunnels, and a trace of the API calls that were issued.
-/

namespace N8n

/-! ## API envelope (services/cloudflare.ts, `CloudflareResponse`, `request`) -/

/-- One entry of the `errors` array of a Cloudflare response envelope. -/
structure CfErrorEntry where
  code : Nat
  message : String
deriving Repr, DecidableEq

/-- The uniform Cloudflare response envelope `{success, errors, messages, result}`. -/
structure CfResponse (T : Type) where
  success : Bool
  errors : List CfErrorEntry
  messages : List String
  result : T
deriving Repr, DecidableEq

/-- Outcome of one HTTP exchange as seen by `request`: either the fetch
itself fails (network error, malformed response) or an envelope arrives. -/
inductive Raw (T : Type) where
  | netFail (msg : String)
  | resp (r : CfResponse T)
deriving Repr, DecidableEq

/-- Errors a service method can raise: a transport failure, the error thrown
by `request` on a `success:false` envelope, or another thrown `Error`
(such as the could-not-determine-account error of `getAccountId`). -/
inductive Err where
  | transport (msg : String)
  | remote (msg : String)
  | logic (msg : String)
deriving Repr, DecidableEq

/-- Concatenation of the envelope error messages, as in
`data.errors.map((e) => e.message).join(", ")`. -/
def joinedMessages (errors : List CfErrorEntry) : String :=
  String.intercalate ", " (errors.map (fun e => e.message))

/-- `CloudflareService.request`: propagate transport failures, throw on a
`success:false` envelope, return the envelope otherwise. -/
def request {T : Type} (raw : Raw T) : Except Err (CfResponse T) :=
  match raw with
  | .netFail m => .error (.transport m)
  | .resp r =>
      if r.success then .ok r
      else .error (.remote ("Cloudflare API error: " ++ joinedMessages r.errors))

/-! ## Token verification (`validateToken`) -/

/-- Result payload of `GET /user/tokens/verify`. -/
structure TokenVerifyResult where
  id : String
  status : String
deriving Repr, DecidableEq

/-- `CloudflareService.validateToken`: call the verify endpoint, report
whether the result status is `"active"`, and turn any thrown error into
`false` (the `try ... catch { return false }` in the source). -/
def validateToken (verifyRaw : Raw TokenVerifyResult) : Bool :=
  match request verifyRaw with
  | .ok resp => resp.result.status == "active"
  | .error _ => false

/-! ## Subdomain validation (`isValidSubdomain`) -/

/-- Character class `[a-z0-9]` under the regex `i` flag: ASCII letters of
either case and ASCII digits. -/
def isAlnumChar (c : Char) : Bool :=
  (decide ('a' ≤ c) && decide (c ≤ 'z')) ||
  (decide ('A' ≤ c) && decide (c ≤ 'Z')) ||
  (decide ('0' ≤ c) && decide (c ≤ '9'))

/-- Character class `[a-z0-9-]` under the regex `i` flag. -/
def isLabelChar (c : Char) : Bool :=
  isAlnumChar c || c == '-'

/-- Anchored match of `/^[a-z0-9]([a-z0-9-]{0,61}[a-z0-9])?$/i` on a list of
characters: a first alphanumeric character, then either nothing or a block
of at most 61 label characters followed by a final alphanumeric character. -/
def matchesSubdomainPattern : List Char → Bool
  | [] => false
  | c :: rest =>
      isAlnumChar c &&
      (rest.isEmpty ||
        (decide (rest.length ≤ 62) && rest.dropLast.all isLabelChar &&
          (match rest.getLast? with
           | some d => isAlnumChar d
           | none => false)))

/-- `isValidSubdomain` from services/cloudflare.ts:
`subdomainRegex.test(subdomain)` with the regex above. -/
def isValidSubdomain (s : String) : Bool :=
  matchesSubdomainPattern s.data

/-! ## Ingress rules (`configureTunnelIngress`) -/

/-- One ingress rule of the tunnel configuration payload: an optional
hostname filter and a service target. -/
structure IngressRule where
  hostname : Option String
  service : String
deriving Repr, DecidableEq

/-- The ingress list sent by `configureTunnelIngress`: the hostname rule for
the public hostname, followed by the catch-all rule `http_status:404`. -/
def ingressRules (publicHostname : String) (serviceUrl : String) : List IngressRule :=
  [{ hostname := some publicHostname, service := serviceUrl },
   { hostname := none, service := "http_status:404" }]

/-! ## Remote data model (services/cloudflare.ts interfaces) -/

/-- Payload of one entry of `GET /accounts`. -/
structure Account where
  id : String
  name : String
deriving Repr, DecidableEq

/-- The `account` object embedded in a zone. -/
structure ZoneAccount where
  id : String
  name : String
deriving Repr, DecidableEq

/-- One zone of `GET /zones?status=active`. -/
structure Zone where
  id : String
  name : String
  status : String
  account : ZoneAccount
deriving Repr, DecidableEq

/-- One tunnel as listed by `GET /accounts/{a}/cfd_tunnel`. -/
structure Tunnel where
  id : String
  name : String
  status : String
  created_at : String
deriving Repr, DecidableEq

/-- The `credentials_file` object of a tunnel-create response. -/
structure CredentialsFile where
  AccountTag : String
  TunnelID : String
  TunnelName : String
  TunnelSecret : String
deriving Repr, DecidableEq

/-- Result payload of `POST /accounts/{a}/cfd_tunnel`. -/
structure TunnelCreateResult where
  id : String
  name : String
  credentials_file : CredentialsFile
deriving Repr, DecidableEq

/-- One DNS record of the zone DNS endpoints. -/
structure DnsRecord where
  id : String
  name : String
  recordType : String
  content : String
  proxied : Bool
deriving Repr, DecidableEq

/-- The persisted `TunnelConfig` aggregate returned by `setupCloudflareTunnel`. -/
structure TunnelConfig where
  apiToken : String
  accountId : String
  zoneId : String
  zoneName : String
  tunnelId : String
  tunnelName : String
  tunnelToken : String
  hostname : String
  dnsRecordId : String
deriving Repr, DecidableEq

/-- An API call as issued on the wire, used to trace a run. -/
inductive ApiCall where
  | verifyToken
  | listAccounts
  | listZones
  | findDns (zoneId : String) (name : String)
  | createTunnel (accountId : String) (name : String)
  | putIngress (accountId : String) (tunnelId : String) (rules : List IngressRule)
  | getTunnelToken (accountId : String) (tunnelId : String)
  | createDns (zoneId : String) (name : String) (content : String)
  | updateDns (zoneId : String) (recordId : String) (name : String) (content : String)
  | deleteDns (zoneId : String) (recordId : String)
  | deleteTunnel (accountId : String) (tunnelId : String)
  | listTunnels (accountId : String)
deriving Repr, DecidableEq

/-- Whether a call mutates remote state (POST/PUT/DELETE as opposed to GET). -/
def ApiCall.isMutation : ApiCall → Bool
  | .createTunnel _ _ => true
  | .putIngress _ _ _ => true
  | .createDns _ _ _ => true
  | .updateDns _ _ _ _ => true
  | .deleteDns _ _ => true
  | .deleteTunnel _ _ => true
  | _ => false

/-- The mutable state of a `CloudflareService` instance: the lazily cached
account id (`private accountId?`). -/
structure CfState where
  accountId : Option String
deriving Repr, DecidableEq

/-- The remotely existing tunnels (those a listing with `is_deleted=false`
would return). -/
structure World where
  tunnels : List Tunnel
deriving Repr, DecidableEq

/-- Responses of the two endpoints `getAccountId` may consult. -/
structure AccountEnv where
  accounts : Raw (List Account)
  zones : Raw (List Zone)
deriving Repr, DecidableEq

/-- Result of a service method invocation: its returned value or thrown
error, the service state afterwards, and the API calls it issued. -/
structure CallResult (A : Type) where
  res : Except Err A
  st : CfState
  calls : List ApiCall
deriving Repr

/-- Error thrown when neither resolution path yields an account id. -/
def noAccountMsg : String :=
  "Could not determine Cloudflare account ID. Ensure your token has Account:Read or Zone:Read permissions."

/-- The zone fallback of `getAccountId`: list zones and read the account id
embedded in the first zone, requiring it to be a nonempty string (the
truthiness test on `zones[0].account?.id`). -/
def accountIdFromZones (zonesRaw : Raw (List Zone)) (st : CfState)
    (calls : List ApiCall) : CallResult String :=
  match request zonesRaw with
  | .error e => ⟨.error e, st, calls ++ [.listZones]⟩
  | .ok resp =>
      match resp.result with
      | z :: _ =>
          if z.account.id ≠ "" then
            ⟨.ok z.account.id, ⟨some z.account.id⟩, calls ++ [.listZones]⟩
          else ⟨.error (.logic noAccountMsg), st, calls ++ [.listZones]⟩
      | [] => ⟨.error (.logic noAccountMsg), st, calls ++ [.listZones]⟩

/-- `CloudflareService.getAccountId`: return the cached id if present; else
try `GET /accounts` (errors swallowed, empty result falls through) and take
the first account's id; else fall back to the first zone's embedded account
id; else throw. -/
def getAccountId (env : AccountEnv) (st : CfState) : CallResult String :=
  match st.accountId with
  | some a => ⟨.ok a, st, []⟩
  | none =>
      match request env.accounts with
      | .ok resp =>
          match resp.result with
          | a :: _ => ⟨.ok a.id, ⟨some a.id⟩, [.listAccounts]⟩
          | [] => accountIdFromZones env.zones st [.listAccounts]
      | .error _ => accountIdFromZones env.zones st [.listAccounts]

/-- `CloudflareService.listZones`: `GET /zones?status=active`, returning the
result array of the envelope. -/
def listZones (zonesRaw : Raw (List Zone)) : Except Err (List Zone) :=
  match request zonesRaw with
  | .ok resp => .ok resp.result
  | .error e => .error e

/-! ## Service methods touching tunnels and DNS (services/cloudflare.ts) -/

/-- Result of a service method that may touch the remote tunnel set. -/
structure StepResult (A : Type) where
  res : Except Err A
  st : CfState
  world : World
  calls : List ApiCall
deriving Repr

/-- `createTunnel`: resolve the account id, then `POST .../cfd_tunnel`; on a
successful envelope the tunnel starts existing remotely and the result id
and name are returned. -/
def serviceCreateTunnel (aEnv : AccountEnv) (raw : Raw TunnelCreateResult)
    (name : String) (st : CfState) (w : World) : StepResult (String × String) :=
  let g := getAccountId aEnv st
  match g.res with
  | .error e => ⟨.error e, g.st, w, g.calls⟩
  | .ok aid =>
      match request raw with
      | .error e => ⟨.error e, g.st, w, g.calls ++ [.createTunnel aid name]⟩
      | .ok resp =>
          ⟨.ok (resp.result.id, resp.result.name), g.st,
           ⟨w.tunnels ++ [⟨resp.result.id, resp.result.name, "inactive", ""⟩]⟩,
           g.calls ++ [.createTunnel aid name]⟩

/-- `configureTunnelIngress`: resolve the account id, then `PUT` the ingress
configuration consisting of the hostname rule and the catch-all rule. -/
def serviceConfigureIngress (aEnv : AccountEnv) (raw : Raw Unit)
    (tunnelId publicHostname serviceUrl : String) (st : CfState) (w : World) :
    StepResult Unit :=
  let g := getAccountId aEnv st
  match g.res with
  | .error e => ⟨.error e, g.st, w, g.calls⟩
  | .ok aid =>
      match request raw with
      | .error e =>
          ⟨.error e, g.st, w,
           g.calls ++ [.putIngress aid tunnelId (ingressRules publicHostname serviceUrl)]⟩
      | .ok _ =>
          ⟨.ok (), g.st, w,
           g.calls ++ [.putIngress aid tunnelId (ingressRules publicHostname serviceUrl)]⟩

/-- `getTunnelToken`: resolve the account id, then `GET .../token`; the
token is returned directly as the envelope result string. -/
def serviceGetTunnelToken (aEnv : AccountEnv) (raw : Raw String)
    (tunnelId : String) (st : CfState) (w : World) : StepResult String :=
  let g := getAccountId aEnv st
  match g.res with
  | .error e => ⟨.error e, g.st, w, g.calls⟩
  | .ok aid =>
      match request raw with
      | .error e => ⟨.error e, g.st, w, g.calls ++ [.getTunnelToken aid tunnelId]⟩
      | .ok resp => ⟨.ok resp.result, g.st, w, g.calls ++ [.getTunnelToken aid tunnelId]⟩

/-- `deleteTunnel`: resolve the account id, then `DELETE .../cfd_tunnel/{id}`;
on a successful envelope the tunnel stops existing remotely. -/
def serviceDeleteTunnel (aEnv : AccountEnv) (raw : Raw Unit)
    (tunnelId : String) (st : CfState) (w : World) : StepResult Unit :=
  let g := getAccountId aEnv st
  match g.res with
  | .error e => ⟨.error e, g.st, w, g.calls⟩
  | .ok aid =>
      match request raw with
      | .error e => ⟨.error e, g.st, w, g.calls ++ [.deleteTunnel aid tunnelId]⟩
      | .ok _ =>
          ⟨.ok (), g.st, ⟨w.tunnels.filter (fun t => t.id != tunnelId)⟩,
           g.calls ++ [.deleteTunnel aid tunnelId]⟩

/-- `listTunnels` over the modelled remote state: the tunnels currently
existing (the endpoint is queried with `is_deleted=false`). -/
def serviceListTunnels (w : World) : List Tunnel :=
  w.tunnels

/-- `findDnsRecord`: `GET` the record listing filtered by type and name,
returning the first record or nothing. -/
def serviceFindDnsRecord (raw : Raw (List DnsRecord)) (zoneId name : String) :
    Except Err (Option DnsRecord) × List ApiCall :=
  match request raw with
  | .error e => (.error e, [.findDns zoneId name])
  | .ok resp => (.ok resp.result.head?, [.findDns zoneId name])

/-- `createDnsRecord`: `POST` a proxied CNAME of the subdomain pointing at
`{tunnelId}.cfargotunnel.com`, returning the new record id and name. -/
def serviceCreateDnsRecord (raw : Raw DnsRecord)
    (zoneId subdomain tunnelId : String) (st : CfState) (w : World) :
    StepResult (String × String) :=
  let cnameTarget := tunnelId ++ ".cfargotunnel.com"
  match request raw with
  | .error e => ⟨.error e, st, w, [.createDns zoneId subdomain cnameTarget]⟩
  | .ok resp =>
      ⟨.ok (resp.result.id, resp.result.name), st, w,
       [.createDns zoneId subdomain cnameTarget]⟩

/-- `updateDnsRecord`: `PUT` the existing record (same id) with the CNAME
content for the tunnel. -/
def serviceUpdateDnsRecord (raw : Raw Unit)
    (zoneId recordId subdomain tunnelId : String) (st : CfState) (w : World) :
    StepResult Unit :=
  let cnameTarget := tunnelId ++ ".cfargotunnel.com"
  match request raw with
  | .error e => ⟨.error e, st, w, [.updateDns zoneId recordId subdomain cnameTarget]⟩
  | .ok _ => ⟨.ok (), st, w, [.updateDns zoneId recordId subdomain cnameTarget]⟩

/-- `deleteDnsRecord`: `DELETE /zones/{zoneId}/dns_records/{recordId}`. -/
def serviceDeleteDnsRecord (raw : Raw Unit) (zoneId recordId : String) :
    Except Err Unit × List ApiCall :=
  match request raw with
  | .error e => (.error e, [.deleteDns zoneId recordId])
  | .ok _ => (.ok (), [.deleteDns zoneId recordId])

/-! ## The provisioning run (commands/install.ts, `setupCloudflareTunnel`) -/

/-- Options of the `install` command. -/
structure InstallOptions where
  force : Bool := false
  yes : Bool := false
  localOnly : Bool := false
  cloudflareToken : Option String := none
  domain : Option String := none
  subdomain : Option String := none
deriving Repr, DecidableEq

/-- Environment of one provisioning run: the process environment, the
interactive answers, the generated tunnel name, and the remote response for
each endpoint the run may touch. -/
structure SetupEnv where
  envToken : Option String
  promptToken : String
  verify : Raw TokenVerifyResult
  accounts : Raw (List Account)
  zones : Raw (List Zone)
  zoneIndex : Nat
  promptSubdomain : String
  dnsFind : Raw (List DnsRecord)
  confirmUpdate : Bool
  tunnelName : String
  createTunnel : Raw TunnelCreateResult
  ingress : Raw Unit
  tunnelToken : Raw String
  dnsCreate : Raw DnsRecord
  dnsUpdate : Raw Unit
  tunnelDelete : Raw Unit
deriving Repr

/-- How a run of `setupCloudflareTunnel` ends: the returned config, a
`process.exit` with a code, or an uncaught thrown error. -/
inductive SetupOutcome where
  | ok (cfg : TunnelConfig)
  | exit (code : Nat)
  | crash (e : Err)
deriving Repr, DecidableEq

/-- Final outcome, remote tunnel state and call trace of a run. -/
structure SetupResult where
  outcome : SetupOutcome
  world : World
  trace : List ApiCall
deriving Repr

/-- Token selection: `options.cloudflareToken || process.env.CLOUDFLARE_API_TOKEN`,
falling back to the masked prompt. -/
def apiTokenChoice (opts : InstallOptions) (env : SetupEnv) : String :=
  match opts.cloudflareToken with
  | some t => t
  | none =>
      match env.envToken with
      | some t => t
      | none => env.promptToken

/-- Subdomain selection: the `--subdomain` flag, else the interactive input. -/
def subdomainChoice (opts : InstallOptions) (env : SetupEnv) : String :=
  match opts.subdomain with
  | some s => s
  | none => env.promptSubdomain

/-- Zone selection: the `--domain` flag must name a listed zone; without the
flag the interactive selection returns one of the listed zones. -/
def selectZone (domainFlag : Option String) (zones : List Zone) (zoneIndex : Nat) :
    Option Zone :=
  match domainFlag with
  | some d => zones.find? (fun z => z.name == d)
  | none => some (zones.getD (zoneIndex % zones.length) ⟨"", "", "", ⟨"", ""⟩⟩)

/-- Step 8 (create or update the DNS record) and the assembly of the
returned `TunnelConfig`; on failure the created tunnel is deleted (errors
of the compensation swallowed) before exiting with code 1. -/
def setupDnsPhase (env : SetupEnv) (aEnv : AccountEnv)
    (apiToken accountId : String) (zone : Zone) (subdomain : String)
    (existingRecord : Option DnsRecord) (tunnelId tunnelName tunnelToken : String)
    (st : CfState) (w : World) (tr : List ApiCall) : SetupResult :=
  let fullHostname := subdomain ++ "." ++ zone.name
  match existingRecord with
  | some rec =>
      let u := serviceUpdateDnsRecord env.dnsUpdate zone.id rec.id subdomain tunnelId st w
      match u.res with
      | .error _ =>
          let d := serviceDeleteTunnel aEnv env.tunnelDelete tunnelId u.st u.world
          ⟨.exit 1, d.world, tr ++ u.calls ++ d.calls⟩
      | .ok _ =>
          ⟨.ok ⟨apiToken, accountId, zone.id, zone.name, tunnelId, tunnelName,
                tunnelToken, fullHostname, rec.id⟩,
           u.world, tr ++ u.calls⟩
  | none =>
      let c := serviceCreateDnsRecord env.dnsCreate zone.id subdomain tunnelId st w
      match c.res with
      | .error _ =>
          let d := serviceDeleteTunnel aEnv env.tunnelDelete tunnelId c.st c.world
          ⟨.exit 1, d.world, tr ++ c.calls ++ d.calls⟩
      | .ok rid =>
          ⟨.ok ⟨apiToken, accountId, zone.id, zone.name, tunnelId, tunnelName,
                tunnelToken, fullHostname, rid.1⟩,
           c.world, tr ++ c.calls⟩

/-- Step 7 (fetch the tunnel token), deleting the created tunnel on
failure, then step 8. -/
def setupTokenPhase (env : SetupEnv) (aEnv : AccountEnv)
    (apiToken accountId : String) (zone : Zone) (subdomain : String)
    (existingRecord : Option DnsRecord) (tunnelId tunnelName : String)
    (st : CfState) (w : World) (tr : List ApiCall) : SetupResult :=
  let k := serviceGetTunnelToken aEnv env.tunnelToken tunnelId st w
  match k.res with
  | .error _ =>
      let d := serviceDeleteTunnel aEnv env.tunnelDelete tunnelId k.st k.world
      ⟨.exit 1, d.world, tr ++ k.calls ++ d.calls⟩
  | .ok tok =>
      setupDnsPhase env aEnv apiToken accountId zone subdomain existingRecord
        tunnelId tunnelName tok k.st k.world (tr ++ k.calls)

/-- Step 6 (configure ingress for the full hostname with the fixed local
service URL), deleting the created tunnel on failure, then step 7. -/
def setupIngressPhase (env : SetupEnv) (aEnv : AccountEnv)
    (apiToken accountId : String) (zone : Zone) (subdomain : String)
    (existingRecord : Option DnsRecord) (tunnelId tunnelName : String)
    (st : CfState) (w : World) (tr : List ApiCall) : SetupResult :=
  let fullHostname := subdomain ++ "." ++ zone.name
  let i := serviceConfigureIngress aEnv env.ingress tunnelId fullHostname
    "http://n8n:5678" st w
  match i.res with
  | .error _ =>
      let d := serviceDeleteTunnel aEnv env.tunnelDelete tunnelId i.st i.world
      ⟨.exit 1, d.world, tr ++ i.calls ++ d.calls⟩
  | .ok _ =>
      setupTokenPhase env aEnv apiToken accountId zone subdomain existingRecord
        tunnelId tunnelName i.st i.world (tr ++ i.calls)

/-- Step 5 (create the tunnel under the generated name), exiting on
failure with nothing to compensate, then step 6. -/
def setupCreatePhase (env : SetupEnv) (aEnv : AccountEnv)
    (apiToken accountId : String) (zone : Zone) (subdomain : String)
    (existingRecord : Option DnsRecord)
    (st : CfState) (w : World) (tr : List ApiCall) : SetupResult :=
  let c := serviceCreateTunnel aEnv env.createTunnel env.tunnelName st w
  match c.res with
  | .error _ => ⟨.exit 1, c.world, tr ++ c.calls⟩
  | .ok t =>
      setupIngressPhase env aEnv apiToken accountId zone subdomain existingRecord
        t.1 t.2 c.st c.world (tr ++ c.calls)

/-- Step 4 gate: with a pre-existing DNS record for the hostname the user
is asked for confirmation; declining exits cleanly (code 0) before any
mutation. -/
def setupGatePhase (env : SetupEnv) (aEnv : AccountEnv)
    (apiToken accountId : String) (zone : Zone) (subdomain : String)
    (existingRecord : Option DnsRecord)
    (st : CfState) (w : World) (tr : List ApiCall) : SetupResult :=
  if existingRecord.isSome && !env.confirmUpdate then ⟨.exit 0, w, tr⟩
  else
    setupCreatePhase env aEnv apiToken accountId zone subdomain existingRecord
      st w tr

/-- `setupCloudflareTunnel`: token choice and validation (exit 1 when
invalid), account resolution (uncaught on failure), zone listing and
selection (exit 1 on failure, empty listing or unknown `--domain`),
existing-record lookup (uncaught on failure), then the gate and the
mutation pipeline of steps 5 through 8. -/
def setupCloudflareTunnel (opts : InstallOptions) (env : SetupEnv) (w0 : World) :
    SetupResult :=
  let apiToken := apiTokenChoice opts env
  let aEnv : AccountEnv := ⟨env.accounts, env.zones⟩
  if !(validateToken env.verify) then ⟨.exit 1, w0, [.verifyToken]⟩
  else
    let g := getAccountId aEnv ⟨none⟩
    match g.res with
    | .error e => ⟨.crash e, w0, .verifyToken :: g.calls⟩
    | .ok accountId =>
        match listZones env.zones with
        | .error _ => ⟨.exit 1, w0, .verifyToken :: g.calls ++ [.listZones]⟩
        | .ok zones =>
            if zones.length = 0 then
              ⟨.exit 1, w0, .verifyToken :: g.calls ++ [.listZones]⟩
            else
              match selectZone opts.domain zones env.zoneIndex with
              | none => ⟨.exit 1, w0, .verifyToken :: g.calls ++ [.listZones]⟩
              | some zone =>
                  let subdomain := subdomainChoice opts env
                  let fullHostname := subdomain ++ "." ++ zone.name
                  let f := serviceFindDnsRecord env.dnsFind zone.id fullHostname
                  let tr := .verifyToken :: g.calls ++ [.listZones] ++ f.2
                  match f.1 with
                  | .error e => ⟨.crash e, w0, tr⟩
                  | .ok existingRecord =>
                      setupGatePhase env aEnv apiToken accountId zone subdomain
                        existingRecord g.st w0 tr

/-! ## Helper lemmas -/

theorem isLabelChar_of_isAlnumChar {c : Char} (h : isAlnumChar c = true) :
    isLabelChar c = true := by
  simp [isLabelChar, h]

/-- Structural characterization of the anchored regex match: nonempty, at
most 63 characters, every character in `[a-z0-9-]` (case-insensitively),
and the first and last characters alphanumeric. -/
theorem matchesSubdomainPattern_iff (l : List Char) :
    matchesSubdomainPattern l = true ↔
      (l ≠ [] ∧ l.length ≤ 63 ∧ l.all isLabelChar = true ∧
       l.head?.elim False (fun c => isAlnumChar c = true) ∧
       l.getLast?.elim False (fun c => isAlnumChar c = true)) := by
  match l with
  | [] => simp [matchesSubdomainPattern]
  | [c] =>
      simp only [matchesSubdomainPattern, List.isEmpty_nil, Bool.true_or,
        Bool.and_true, ne_eq, List.cons_ne_nil, not_false_iff, true_and,
        List.length_cons, List.length_nil, List.all_cons, List.all_nil,
        List.head?_cons, List.getLast?_singleton, Option.elim_some]
      constructor
      · intro h
        refine ⟨by omega, by simp [isLabelChar_of_isAlnumChar h], h, h⟩
      · intro h
        exact h.2.2.1
  | c :: c2 :: rest2 =>
      rcases List.eq_nil_or_concat (c2 :: rest2) with hnil | ⟨mid, d, hmd⟩
      · exact absurd hnil (List.cons_ne_nil _ _)
      · rw [List.concat_eq_append] at hmd
        rw [hmd]
        have hne : mid ++ [d] ≠ [] := by simp
        have hlastEq : (c :: (mid ++ [d])).getLast? = some d := by
          rw [show c :: (mid ++ [d]) = (c :: mid) ++ [d] by simp]
          exact List.getLast?_concat _
        constructor
        · intro h
          simp only [matchesSubdomainPattern, List.dropLast_concat,
            List.getLast?_concat, Bool.and_eq_true, Bool.or_eq_true,
            List.isEmpty_eq_true, decide_eq_true_eq] at h
          rcases h with ⟨hc, h2⟩
          rcases h2 with habs | ⟨⟨hlen, hmid⟩, hd⟩
          · exact absurd habs hne
          · refine ⟨by simp, ?_, ?_, ?_, ?_⟩
            · simp only [List.length_cons, List.length_append, List.length_nil]
              simp only [List.length_append, List.length_cons, List.length_nil] at hlen
              omega
            · simp [List.all_cons, List.all_append, hc, hmid, hd,
                isLabelChar_of_isAlnumChar hc, isLabelChar_of_isAlnumChar hd]
            · simpa using hc
            · rw [hlastEq]
              simpa using hd
        · rintro ⟨-, hlen, hall, hc, hd⟩
          have hd2 : isAlnumChar d = true := by
            rw [hlastEq] at hd
            simpa using hd
          have hc2 : isAlnumChar c = true := by simpa using hc
          have hmid : mid.all isLabelChar = true := by
            simp only [List.all_cons, List.all_append, List.all_cons, List.all_nil,
              Bool.and_eq_true, Bool.and_true] at hall
            exact hall.2.1
          have hlen2 : mid.length ≤ 61 := by
            simp only [List.length_cons, List.length_append, List.length_nil] at hlen
            omega
          simp only [matchesSubdomainPattern, List.dropLast_concat,
            List.getLast?_concat, Bool.and_eq_true, Bool.or_eq_true,
            List.isEmpty_eq_true, decide_eq_true_eq]
          refine ⟨hc2, Or.inr ⟨⟨?_, hmid⟩, hd2⟩⟩
          simp only [List.length_append, List.length_cons, List.length_nil]
          omega

/-- C5. Subdomain validation: `isValidSubdomain` accepts exactly the
case-insensitive matches of `^[a-z0-9]([a-z0-9-]{0,61}[a-z0-9])?$`
(characterized structurally), single-character alphanumeric strings are
accepted, the empty string and strings with a leading or trailing hyphen
are rejected, and strings longer than 63 characters are rejected. -/
theorem isValidSubdomain_spec :
    (∀ s : String, isValidSubdomain s = true ↔
        (s.data ≠ [] ∧ s.data.length ≤ 63 ∧ s.data.all isLabelChar = true ∧
         s.data.head?.elim False (fun c => isAlnumChar c = true) ∧
         s.data.getLast?.elim False (fun c => isAlnumChar c = true))) ∧
    isValidSubdomain "n8n" = true ∧
    isValidSubdomain "a" = true ∧
    isValidSubdomain "" = false ∧
    isValidSubdomain "-n8n" = false ∧
    isValidSubdomain "n8n-" = false ∧
    (∀ s : String, 63 < s.data.length → isValidSubdomain s = false) ∧
    (∀ s : String, s.data.head? = some '-' → isValidSubdomain s = false) ∧
    (∀ s : String, s.data.getLast? = some '-' → isValidSubdomain s = false) := by
  have hiff : ∀ s : String, isValidSubdomain s = true ↔
      (s.data ≠ [] ∧ s.data.length ≤ 63 ∧ s.data.all isLabelChar = true ∧
       s.data.head?.elim False (fun c => isAlnumChar c = true) ∧
       s.data.getLast?.elim False (fun c => isAlnumChar c = true)) :=
    fun s => matchesSubdomainPattern_iff s.data
  refine ⟨hiff, by decide, by decide, by decide, by decide, by decide, ?_, ?_, ?_⟩
  · intro s hlen
    by_contra hne
    have := (hiff s).mp (by revert hne; cases isValidSubdomain s <;> simp)
    omega
  · intro s hhead
    by_contra hne
    have h := (hiff s).mp (by revert hne; cases isValidSubdomain s <;> simp)
    rw [hhead] at h
    simp [isAlnumChar] at h
  · intro s hlast
    by_contra hne
    have h := (hiff s).mp (by revert hne; cases isValidSubdomain s <;> simp)
    rw [hlast] at h
    simp [isAlnumChar] at h

/-- Witness for C5 at concrete inputs. -/
theorem isValidSubdomain_spec_witness :
    isValidSubdomain "n8n" = true ∧ isValidSubdomain "aaaab-aaaac-aaaad-aaaae-aaaaf-aaaag-aaaah-aaaai-aaaaj-aaaak-aaaX" = false :=
  ⟨isValidSubdomain_spec.2.1,
   isValidSubdomain_spec.2.2.2.2.2.2.1
     "aaaab-aaaac-aaaad-aaaae-aaaaf-aaaag-aaaah-aaaai-aaaaj-aaaak-aaaX" (by decide)⟩

/-- C6. The ingress list sent by `configureTunnelIngress` always ends with
the catch-all rule (no hostname, fixed `http_status:404` service), and
every rule before the catch-all carries a hostname. -/
theorem ingressRules_catchall_last (publicHostname serviceUrl : String) :
    (ingressRules publicHostname serviceUrl).getLast? =
      some { hostname := none, service := "http_status:404" } ∧
    ((ingressRules publicHostname serviceUrl).dropLast.all
      (fun r => r.hostname.isSome)) = true ∧
    (ingressRules publicHostname serviceUrl) ≠ [] := by
  refine ⟨rfl, ?_, by simp [ingressRules]⟩
  simp [ingressRules]

/-- C10. Token validation is total and never propagates an error: it
returns `true` exactly when the verify endpoint delivers a successful
envelope whose result status is `"active"`, and `false` on every failure,
transport errors and remote rejections alike. -/
theorem validateToken_total_spec :
    (∀ raw : Raw TokenVerifyResult,
        validateToken raw = true ↔
          ∃ r, raw = Raw.resp r ∧ r.success = true ∧ r.result.status = "active") ∧
    (∀ msg, validateToken (Raw.netFail msg) = false) ∧
    (∀ r, r.success = false → validateToken (Raw.resp r) = false) := by
  refine ⟨?_, ?_, ?_⟩
  · intro raw
    constructor
    · intro h
      match raw with
      | .netFail m => simp [validateToken, request] at h
      | .resp r =>
          refine ⟨r, rfl, ?_, ?_⟩
          · by_contra hs
            have hs2 : r.success = false := by revert hs; cases r.success <;> simp
            simp [validateToken, request, hs2] at h
          · rcases hsucc : r.success with _ | _
            · simp [validateToken, request, hsucc] at h
            · simp [validateToken, request, hsucc, beq_iff_eq] at h
              exact h
    · rintro ⟨r, rfl, hs, hst⟩
      simp [validateToken, request, hs, hst]
  · intro msg
    simp [validateToken, request]
  · intro r hs
    simp [validateToken, request, hs]

/-- Witness for C6 at a concrete hostname and service URL. -/
theorem ingressRules_catchall_last_witness :
    (ingressRules "n8n.example.com" "http://n8n:5678").getLast? =
      some { hostname := none, service := "http_status:404" } ∧
    ((ingressRules "n8n.example.com" "http://n8n:5678").dropLast.all
      (fun r => r.hostname.isSome)) = true :=
  ⟨(ingressRules_catchall_last "n8n.example.com" "http://n8n:5678").1,
   (ingressRules_catchall_last "n8n.example.com" "http://n8n:5678").2.1⟩

/-- Witness for C10 at concrete verify responses: an active envelope, a
transport failure and a remote rejection. -/
theorem validateToken_total_spec_witness :
    validateToken (Raw.resp ⟨true, [], [], ⟨"id1", "active"⟩⟩) = true ∧
    validateToken (Raw.netFail "connect ECONNREFUSED") = false ∧
    validateToken (Raw.resp ⟨false, [⟨10000, "Invalid token"⟩], [],
      ⟨"id1", "active"⟩⟩) = false :=
  ⟨(validateToken_total_spec.1 _).mpr ⟨_, rfl, rfl, rfl⟩,
   validateToken_total_spec.2.1 "connect ECONNREFUSED",
   validateToken_total_spec.2.2 _ rfl⟩


/-- A successful zone fallback stores the returned id in the cache. -/
theorem accountIdFromZones_ok_caches (zonesRaw : Raw (List Zone)) (st : CfState)
    (calls : List ApiCall) (a : String)
    (h : (accountIdFromZones zonesRaw st calls).res = .ok a) :
    (accountIdFromZones zonesRaw st calls).st.accountId = some a := by
  rcases hz : request zonesRaw with e | resp
  · simp [accountIdFromZones, hz] at h
  · rcases hr : resp.result with _ | ⟨z, zs⟩
    · simp [accountIdFromZones, hz, hr] at h
    · by_cases hid : z.account.id = ""
      · simp [accountIdFromZones, hz, hr, hid] at h
      · simp only [accountIdFromZones, hz, hr] at h ⊢
        simp [hid] at h ⊢
        exact h

/-- A successful account resolution stores the returned id in the cache. -/
theorem getAccountId_ok_caches (env : AccountEnv) (st : CfState) (a : String)
    (h : (getAccountId env st).res = .ok a) :
    (getAccountId env st).st.accountId = some a := by
  rcases hst : st.accountId with _ | a0
  · rcases hacc : request env.accounts with e | resp
    · have hred : getAccountId env st = accountIdFromZones env.zones st [.listAccounts] := by
        simp [getAccountId, hst, hacc]
      rw [hred] at h ⊢
      exact accountIdFromZones_ok_caches _ _ _ _ h
    · rcases hres : resp.result with _ | ⟨a1, rest⟩
      · have hred : getAccountId env st = accountIdFromZones env.zones st [.listAccounts] := by
          simp [getAccountId, hst, hacc, hres]
        rw [hred] at h ⊢
        exact accountIdFromZones_ok_caches _ _ _ _ h
      · have hred : getAccountId env st =
            ⟨.ok a1.id, ⟨some a1.id⟩, [.listAccounts]⟩ := by
          simp [getAccountId, hst, hacc, hres]
        rw [hred] at h ⊢
        simp at h
        simp [h]
  · have hred : getAccountId env st = ⟨.ok a0, st, []⟩ := by
      simp [getAccountId, hst]
    rw [hred] at h ⊢
    simp at h
    rw [hst, h]

/-- Account resolution only issues read calls (the two listing endpoints). -/
theorem getAccountId_calls_reads (env : AccountEnv) (st : CfState) :
    ((getAccountId env st).calls.all fun c => !c.isMutation) = true := by
  have hfall : ∀ (zonesRaw : Raw (List Zone)) (st2 : CfState),
      ((accountIdFromZones zonesRaw st2 [.listAccounts]).calls.all
        fun c => !c.isMutation) = true := by
    intro zonesRaw st2
    rcases hz : request zonesRaw with e | resp
    · simp [accountIdFromZones, hz, ApiCall.isMutation]
    · rcases hr : resp.result with _ | ⟨z, zs⟩
      · simp [accountIdFromZones, hz, hr, ApiCall.isMutation]
      · by_cases hid : z.account.id = ""
        · simp [accountIdFromZones, hz, hr, hid, ApiCall.isMutation]
        · simp [accountIdFromZones, hz, hr, hid, ApiCall.isMutation]
  rcases hst : st.accountId with _ | a0
  · rcases hacc : request env.accounts with e | resp
    · simp only [getAccountId, hst, hacc]
      exact hfall _ _
    · rcases hres : resp.result with _ | ⟨a1, rest⟩
      · simp only [getAccountId, hst, hacc, hres]
        exact hfall _ _
      · simp [getAccountId, hst, hacc, hres, ApiCall.isMutation]
  · simp [getAccountId, hst]

/-- C7. Account-resolution fallback: when the account-listing path yields no
id (the endpoint fails or returns an empty list) and the zone listing
succeeds with a first zone carrying an account id, resolution succeeds with
exactly that id; when the zone path also yields nothing, resolution fails
with an error. -/
theorem getAccountId_zone_fallback :
    (∀ (env : AccountEnv) (zresp : CfResponse (List Zone)) (z : Zone) (zs : List Zone),
        ((∃ e, request env.accounts = .error e) ∨
         (∃ aresp, request env.accounts = .ok aresp ∧ aresp.result = [])) →
        request env.zones = .ok zresp → zresp.result = z :: zs →
        z.account.id ≠ "" →
        getAccountId env ⟨none⟩ =
          ⟨.ok z.account.id, ⟨some z.account.id⟩, [.listAccounts, .listZones]⟩) ∧
    (∀ env : AccountEnv,
        ((∃ e, request env.accounts = .error e) ∨
         (∃ aresp, request env.accounts = .ok aresp ∧ aresp.result = [])) →
        ((∃ e, request env.zones = .error e) ∨
         (∃ zresp, request env.zones = .ok zresp ∧
            (zresp.result = [] ∨ ∃ z zs, zresp.result = z :: zs ∧ z.account.id = ""))) →
        ∃ e, (getAccountId env ⟨none⟩).res = .error e) := by
  constructor
  · intro env zresp z zs hacc hzones hzr hid
    have hfall : accountIdFromZones env.zones ⟨none⟩ [.listAccounts] =
        ⟨.ok z.account.id, ⟨some z.account.id⟩, [.listAccounts, .listZones]⟩ := by
      simp [accountIdFromZones, hzones, hzr, hid]
    have hmain : getAccountId env ⟨none⟩ =
        accountIdFromZones env.zones ⟨none⟩ [.listAccounts] := by
      rcases hacc with ⟨e, he⟩ | ⟨aresp, ha, har⟩
      · simp [getAccountId, he]
      · simp [getAccountId, ha, har]
    rw [hmain]
    exact hfall
  · intro env hacc hzones
    have hfall : ∃ e, (accountIdFromZones env.zones ⟨none⟩ [.listAccounts]).res = .error e := by
      rcases hzones with ⟨e, he⟩ | ⟨zresp, hz, hzr⟩
      · exact ⟨e, by simp [accountIdFromZones, he]⟩
      · rcases hzr with hnil | ⟨z, zs, hcons, hid⟩
        · exact ⟨.logic noAccountMsg, by simp [accountIdFromZones, hz, hnil]⟩
        · exact ⟨.logic noAccountMsg, by simp [accountIdFromZones, hz, hcons, hid]⟩
    have hmain : getAccountId env ⟨none⟩ =
        accountIdFromZones env.zones ⟨none⟩ [.listAccounts] := by
      rcases hacc with ⟨e, he⟩ | ⟨aresp, ha, har⟩
      · simp [getAccountId, he]
      · simp [getAccountId, ha, har]
    rw [hmain]
    exact hfall

/-- Witness for C7 at a concrete environment: account listing rejected by
the remote system, one zone listed with an embedded account id. -/
theorem getAccountId_zone_fallback_witness :
    getAccountId
      ⟨Raw.resp ⟨false, [⟨9109, "Unauthorized to access requested resource"⟩], [], []⟩,
       Raw.resp ⟨true, [], [], [⟨"z1", "example.com", "active", ⟨"acc1", "Acme"⟩⟩]⟩⟩
      ⟨none⟩ =
      ⟨.ok "acc1", ⟨some "acc1"⟩, [.listAccounts, .listZones]⟩ :=
  getAccountId_zone_fallback.1
    ⟨Raw.resp ⟨false, [⟨9109, "Unauthorized to access requested resource"⟩], [], []⟩,
     Raw.resp ⟨true, [], [], [⟨"z1", "example.com", "active", ⟨"acc1", "Acme"⟩⟩]⟩⟩
    ⟨true, [], [], [⟨"z1", "example.com", "active", ⟨"acc1", "Acme"⟩⟩]⟩
    ⟨"z1", "example.com", "active", ⟨"acc1", "Acme"⟩⟩ []
    (Or.inl ⟨.remote "Cloudflare API error: Unauthorized to access requested resource", rfl⟩)
    rfl rfl (by decide)

/-- C8. The account id is resolved at most once per service instance: a
call that finds the cache filled returns the cached id with no remote
calls, and after any successful resolution every later call — under any
remote behaviour whatsoever — returns the same id, leaves the state
unchanged and issues no remote calls. -/
theorem getAccountId_cached_once :
    (∀ (env : AccountEnv) (st : CfState) (a : String),
        st.accountId = some a →
        getAccountId env st = ⟨.ok a, st, []⟩) ∧
    (∀ (env env2 : AccountEnv) (st : CfState) (a : String),
        (getAccountId env st).res = .ok a →
        getAccountId env2 (getAccountId env st).st =
          ⟨.ok a, (getAccountId env st).st, []⟩) := by
  have hcache : ∀ (env : AccountEnv) (st : CfState) (a : String),
      st.accountId = some a → getAccountId env st = ⟨.ok a, st, []⟩ := by
    intro env st a h
    unfold getAccountId
    rw [h]
  refine ⟨hcache, ?_⟩
  intro env env2 st a h
  exact hcache env2 _ a (getAccountId_ok_caches env st a h)

/-- Witness for C8: resolve once against a concrete environment, then call
again with a completely different (all-failing) environment. -/
theorem getAccountId_cached_once_witness :
    getAccountId ⟨Raw.netFail "dns failure", Raw.netFail "dns failure"⟩
      (getAccountId
        ⟨Raw.resp ⟨true, [], [], [⟨"acc1", "Acme"⟩]⟩, Raw.netFail "offline"⟩
        ⟨none⟩).st =
      ⟨.ok "acc1",
       (getAccountId
         ⟨Raw.resp ⟨true, [], [], [⟨"acc1", "Acme"⟩]⟩, Raw.netFail "offline"⟩
         ⟨none⟩).st, []⟩ :=
  getAccountId_cached_once.2
    ⟨Raw.resp ⟨true, [], [], [⟨"acc1", "Acme"⟩]⟩, Raw.netFail "offline"⟩
    ⟨Raw.netFail "dns failure", Raw.netFail "dns failure"⟩
    ⟨none⟩ "acc1" rfl

/-! ## Reduction lemmas for the provisioning pipeline -/

theorem serviceCreateTunnel_cached_ok (aEnv : AccountEnv)
    (raw : Raw TunnelCreateResult) (name : String) (st : CfState) (w : World)
    (aid : String) (resp : CfResponse TunnelCreateResult)
    (hst : st.accountId = some aid) (hr : request raw = .ok resp) :
    serviceCreateTunnel aEnv raw name st w =
      ⟨.ok (resp.result.id, resp.result.name), st,
       ⟨w.tunnels ++ [⟨resp.result.id, resp.result.name, "inactive", ""⟩]⟩,
       [.createTunnel aid name]⟩ := by
  unfold serviceCreateTunnel
  rw [getAccountId_cached_once.1 aEnv st aid hst]
  simp [hr]

theorem serviceConfigureIngress_cached (aEnv : AccountEnv) (raw : Raw Unit)
    (tunnelId publicHostname serviceUrl : String) (st : CfState) (w : World)
    (aid : String) (hst : st.accountId = some aid) :
    serviceConfigureIngress aEnv raw tunnelId publicHostname serviceUrl st w =
      ⟨(request raw).map (fun _ => ()), st, w,
       [.putIngress aid tunnelId (ingressRules publicHostname serviceUrl)]⟩ := by
  unfold serviceConfigureIngress
  rw [getAccountId_cached_once.1 aEnv st aid hst]
  rcases hr : request raw with e | resp <;> simp [hr, Except.map]

theorem serviceGetTunnelToken_cached (aEnv : AccountEnv) (raw : Raw String)
    (tunnelId : String) (st : CfState) (w : World)
    (aid : String) (hst : st.accountId = some aid) :
    serviceGetTunnelToken aEnv raw tunnelId st w =
      ⟨(request raw).map (fun resp => resp.result), st, w,
       [.getTunnelToken aid tunnelId]⟩ := by
  unfold serviceGetTunnelToken
  rw [getAccountId_cached_once.1 aEnv st aid hst]
  rcases hr : request raw with e | resp <;> simp [hr, Except.map]

theorem serviceDeleteTunnel_cached_ok (aEnv : AccountEnv) (raw : Raw Unit)
    (tunnelId : String) (st : CfState) (w : World)
    (aid : String) (resp : CfResponse Unit)
    (hst : st.accountId = some aid) (hr : request raw = .ok resp) :
    serviceDeleteTunnel aEnv raw tunnelId st w =
      ⟨.ok (), st, ⟨w.tunnels.filter (fun t => t.id != tunnelId)⟩,
       [.deleteTunnel aid tunnelId]⟩ := by
  unfold serviceDeleteTunnel
  rw [getAccountId_cached_once.1 aEnv st aid hst]
  simp [hr]

theorem serviceDeleteTunnel_cached_error (aEnv : AccountEnv) (raw : Raw Unit)
    (tunnelId : String) (st : CfState) (w : World)
    (aid : String) (e : Err)
    (hst : st.accountId = some aid) (hr : request raw = .error e) :
    serviceDeleteTunnel aEnv raw tunnelId st w =
      ⟨.error e, st, w, [.deleteTunnel aid tunnelId]⟩ := by
  unfold serviceDeleteTunnel
  rw [getAccountId_cached_once.1 aEnv st aid hst]
  simp [hr]

/-- Whatever the outcome of the delete request, the compensation issues the
delete call and leaves at most the other tunnels in the world. -/
theorem serviceDeleteTunnel_cached_calls (aEnv : AccountEnv) (raw : Raw Unit)
    (tunnelId : String) (st : CfState) (w : World)
    (aid : String) (hst : st.accountId = some aid) :
    (serviceDeleteTunnel aEnv raw tunnelId st w).calls = [.deleteTunnel aid tunnelId] ∧
    (∀ resp, request raw = .ok resp →
      (serviceDeleteTunnel aEnv raw tunnelId st w).world =
        ⟨w.tunnels.filter (fun t => t.id != tunnelId)⟩) := by
  constructor
  · rcases hr : request raw with e | resp
    · rw [serviceDeleteTunnel_cached_error aEnv raw tunnelId st w aid e hst hr]
    · rw [serviceDeleteTunnel_cached_ok aEnv raw tunnelId st w aid resp hst hr]
  · intro resp hr
    rw [serviceDeleteTunnel_cached_ok aEnv raw tunnelId st w aid resp hst hr]

/-- Runs that pass token validation, account resolution, zone listing and
selection, and the existing-record lookup reduce to the gate phase. -/
theorem setup_reaches_gate (opts : InstallOptions) (env : SetupEnv) (w0 : World)
    (zresp : CfResponse (List Zone)) (fresp : CfResponse (List DnsRecord))
    (aid : String) (zone : Zone)
    (hv : validateToken env.verify = true)
    (hacc : (getAccountId ⟨env.accounts, env.zones⟩ ⟨none⟩).res = .ok aid)
    (hz : request env.zones = .ok zresp)
    (hzne : zresp.result ≠ [])
    (hsel : selectZone opts.domain zresp.result env.zoneIndex = some zone)
    (hf : request env.dnsFind = .ok fresp) :
    setupCloudflareTunnel opts env w0 =
      setupGatePhase env ⟨env.accounts, env.zones⟩ (apiTokenChoice opts env) aid
        zone (subdomainChoice opts env) fresp.result.head?
        (getAccountId ⟨env.accounts, env.zones⟩ ⟨none⟩).st w0
        (.verifyToken :: (getAccountId ⟨env.accounts, env.zones⟩ ⟨none⟩).calls
          ++ [.listZones,
              .findDns zone.id (subdomainChoice opts env ++ "." ++ zone.name)]) := by
  unfold setupCloudflareTunnel
  rw [hv]
  simp only [Bool.not_true, Bool.false_eq_true, if_false]
  rcases hg : getAccountId ⟨env.accounts, env.zones⟩ ⟨none⟩ with ⟨gres, gst, gcalls⟩
  rw [hg] at hacc
  simp only at hacc
  rw [hacc]
  have hlz : listZones env.zones = .ok zresp.result := by
    simp [listZones, hz]
  rw [hlz]
  simp only [List.length_eq_zero, hzne, if_false, hsel]
  simp [serviceFindDnsRecord, hf]

/-- A call of a mutating kind never occurs in an all-reads trace segment. -/
theorem not_mem_of_mutation {c : ApiCall} {l : List ApiCall}
    (hall : (l.all fun x => !x.isMutation) = true) (hc : c.isMutation = true) :
    c ∉ l := by
  intro hmem
  have h2 := List.all_eq_true.mp hall c hmem
  simp [hc] at h2

/-- Deleting a tunnel id from the remote set removes it from any listing. -/
theorem not_mem_map_id_filter (l : List Tunnel) (tid : String) :
    tid ∉ (l.filter (fun t => t.id != tid)).map Tunnel.id := by
  simp only [List.mem_map, List.mem_filter, bne_iff_ne, ne_eq, not_exists, not_and]
  intro t ht
  exact ht.2

/-- C4. DNS conflict confirmation gate: when a CNAME record already exists
for the target hostname and the user declines the update confirmation, the
run exits cleanly with code 0, the remote tunnel set is unchanged, and the
trace holds no mutating call (no tunnel create, no ingress write, no DNS
write). -/
theorem setup_dns_conflict_gate (opts : InstallOptions) (env : SetupEnv)
    (w0 : World) (zresp : CfResponse (List Zone)) (fresp : CfResponse (List DnsRecord))
    (aid : String) (zone : Zone) (rec : DnsRecord) (recs : List DnsRecord)
    (hv : validateToken env.verify = true)
    (hacc : (getAccountId ⟨env.accounts, env.zones⟩ ⟨none⟩).res = .ok aid)
    (hz : request env.zones = .ok zresp)
    (hzne : zresp.result ≠ [])
    (hsel : selectZone opts.domain zresp.result env.zoneIndex = some zone)
    (hf : request env.dnsFind = .ok fresp)
    (hrec : fresp.result = rec :: recs)
    (hconf : env.confirmUpdate = false) :
    (setupCloudflareTunnel opts env w0).outcome = .exit 0 ∧
    (setupCloudflareTunnel opts env w0).world = w0 ∧
    ((setupCloudflareTunnel opts env w0).trace.all fun c => !c.isMutation) = true := by
  rw [setup_reaches_gate opts env w0 zresp fresp aid zone hv hacc hz hzne hsel hf]
  rw [hrec]
  simp only [setupGatePhase, List.head?_cons, Option.isSome_some, hconf,
    Bool.not_false, Bool.and_true, if_true]
  refine ⟨trivial, trivial, ?_⟩
  have hreads := getAccountId_calls_reads ⟨env.accounts, env.zones⟩ ⟨none⟩
  simp only [List.all_cons, List.all_append, Bool.and_eq_true]
  exact ⟨⟨by simp [ApiCall.isMutation], hreads⟩, by simp [ApiCall.isMutation]⟩

/-- A fully successful remote environment for concrete evaluations. -/
def okEnv : SetupEnv :=
  { envToken := none
    promptToken := "tok-secret"
    verify := Raw.resp ⟨true, [], [], ⟨"tokid", "active"⟩⟩
    accounts := Raw.resp ⟨true, [], [], [⟨"acc1", "Acme"⟩]⟩
    zones := Raw.resp ⟨true, [], [],
      [⟨"zone1", "example.com", "active", ⟨"acc1", "Acme"⟩⟩]⟩
    zoneIndex := 0
    promptSubdomain := "n8n"
    dnsFind := Raw.resp ⟨true, [], [], []⟩
    confirmUpdate := true
    tunnelName := "n8n-host-ab12"
    createTunnel := Raw.resp ⟨true, [], [],
      ⟨"tun1", "n8n-host-ab12", ⟨"acc1", "tun1", "n8n-host-ab12", "s3cret"⟩⟩⟩
    ingress := Raw.resp ⟨true, [], [], ()⟩
    tunnelToken := Raw.resp ⟨true, [], [], "eyJ-token"⟩
    dnsCreate := Raw.resp ⟨true, [], [],
      ⟨"rec1", "n8n.example.com", "CNAME", "tun1.cfargotunnel.com", true⟩⟩
    dnsUpdate := Raw.resp ⟨true, [], [], ()⟩
    tunnelDelete := Raw.resp ⟨true, [], [], ()⟩ }

/-- A pre-existing CNAME record for the target hostname. -/
def existingRec : DnsRecord :=
  ⟨"recOld", "n8n.example.com", "CNAME", "elsewhere.example.net", true⟩

/-- The successful environment, except that a record already exists for the
hostname and the user declines the update. -/
def conflictEnv : SetupEnv :=
  { okEnv with
    dnsFind := Raw.resp ⟨true, [], [], [existingRec]⟩
    confirmUpdate := false }

/-- Witness for C4: pre-existing record, user declines. -/
theorem setup_dns_conflict_gate_witness :
    (setupCloudflareTunnel {} conflictEnv ⟨[]⟩).outcome = .exit 0 ∧
    (setupCloudflareTunnel {} conflictEnv ⟨[]⟩).world = ⟨[]⟩ ∧
    ((setupCloudflareTunnel {} conflictEnv ⟨[]⟩).trace.all
      fun c => !c.isMutation) = true :=
  setup_dns_conflict_gate {} conflictEnv ⟨[]⟩
    ⟨true, [], [], [⟨"zone1", "example.com", "active", ⟨"acc1", "Acme"⟩⟩]⟩
    ⟨true, [], [], [existingRec]⟩ "acc1"
    ⟨"zone1", "example.com", "active", ⟨"acc1", "Acme"⟩⟩ existingRec []
    rfl rfl rfl (by simp) rfl rfl rfl rfl

/-- The compensation branch issues the delete call for the created tunnel,
and when the delete request succeeds the tunnel is gone from the listing. -/
theorem compensation_branch (env : SetupEnv) (aEnv : AccountEnv)
    (aid cid : String) (st1 : CfState) (w1 : World) (tr : List ApiCall)
    (hcache : st1.accountId = some aid) :
    (ApiCall.deleteTunnel aid cid ∈
      tr ++ (serviceDeleteTunnel aEnv env.tunnelDelete cid st1 w1).calls) ∧
    (∀ u, request env.tunnelDelete = .ok u →
      cid ∉ (serviceListTunnels
        (serviceDeleteTunnel aEnv env.tunnelDelete cid st1 w1).world).map Tunnel.id) := by
  obtain ⟨hcalls, hworld⟩ :=
    serviceDeleteTunnel_cached_calls aEnv env.tunnelDelete cid st1 w1 aid hcache
  constructor
  · rw [hcalls]
    simp
  · intro u hu
    rw [hworld u hu]
    exact not_mem_map_id_filter w1.tunnels cid

/-- C3. Compensation on mid-pipeline failure: when the tunnel was created
in step 5 and ingress configuration (step 6), the token fetch (step 7) or
the DNS write (step 8) fails, the run exits with code 1, the delete call
for the created tunnel id is in the trace, and — when the delete request
itself succeeds — a subsequent tunnel listing does not contain that id. -/
theorem setup_midfailure_compensation (opts : InstallOptions) (env : SetupEnv)
    (w0 : World) (zresp : CfResponse (List Zone)) (fresp : CfResponse (List DnsRecord))
    (aid : String) (zone : Zone) (cresp : CfResponse TunnelCreateResult)
    (hv : validateToken env.verify = true)
    (hacc : (getAccountId ⟨env.accounts, env.zones⟩ ⟨none⟩).res = .ok aid)
    (hz : request env.zones = .ok zresp)
    (hzne : zresp.result ≠ [])
    (hsel : selectZone opts.domain zresp.result env.zoneIndex = some zone)
    (hf : request env.dnsFind = .ok fresp)
    (hgate : fresp.result = [] ∨ env.confirmUpdate = true)
    (hcreate : request env.createTunnel = .ok cresp)
    (hfail :
      (∃ e, request env.ingress = .error e) ∨
      ((∃ u, request env.ingress = .ok u) ∧
        (∃ e, request env.tunnelToken = .error e)) ∨
      ((∃ u, request env.ingress = .ok u) ∧
        (∃ s, request env.tunnelToken = .ok s) ∧
        (match fresp.result.head? with
         | some _ => ∃ e, request env.dnsUpdate = .error e
         | none => ∃ e, request env.dnsCreate = .error e))) :
    (setupCloudflareTunnel opts env w0).outcome = .exit 1 ∧
    ApiCall.deleteTunnel aid cresp.result.id ∈ (setupCloudflareTunnel opts env w0).trace ∧
    (∀ u, request env.tunnelDelete = .ok u →
      cresp.result.id ∉
        (serviceListTunnels (setupCloudflareTunnel opts env w0).world).map Tunnel.id) := by
  have hcache : (getAccountId ⟨env.accounts, env.zones⟩ ⟨none⟩).st.accountId = some aid :=
    getAccountId_ok_caches _ _ _ hacc
  rw [setup_reaches_gate opts env w0 zresp fresp aid zone hv hacc hz hzne hsel hf]
  have hgatecond : (fresp.result.head?.isSome && !env.confirmUpdate) = false := by
    rcases hgate with hnil | hcu
    · simp [hnil]
    · simp [hcu]
  simp only [setupGatePhase, hgatecond, Bool.false_eq_true, if_false]
  simp only [setupCreatePhase,
    serviceCreateTunnel_cached_ok ⟨env.accounts, env.zones⟩ env.createTunnel
      env.tunnelName _ w0 aid cresp hcache hcreate]
  simp only [setupIngressPhase,
    serviceConfigureIngress_cached ⟨env.accounts, env.zones⟩ env.ingress
      cresp.result.id (subdomainChoice opts env ++ "." ++ zone.name) "http://n8n:5678"
      _ _ aid hcache]
  rcases hfail with ⟨e, he⟩ | ⟨⟨u, hu⟩, e, he⟩ | ⟨⟨u, hu⟩, ⟨s, hs⟩, hdns⟩
  · simp only [he, Except.map]
    obtain ⟨hmem, hworld⟩ := compensation_branch env ⟨env.accounts, env.zones⟩
      aid cresp.result.id _ _ _ hcache
    exact ⟨trivial, hmem, hworld⟩
  · simp only [hu, Except.map]
    simp only [setupTokenPhase,
      serviceGetTunnelToken_cached ⟨env.accounts, env.zones⟩ env.tunnelToken
        cresp.result.id _ _ aid hcache]
    simp only [he, Except.map]
    obtain ⟨hmem, hworld⟩ := compensation_branch env ⟨env.accounts, env.zones⟩
      aid cresp.result.id _ _ _ hcache
    exact ⟨trivial, hmem, hworld⟩
  · simp only [hu, Except.map]
    simp only [setupTokenPhase,
      serviceGetTunnelToken_cached ⟨env.accounts, env.zones⟩ env.tunnelToken
        cresp.result.id _ _ aid hcache]
    simp only [hs, Except.map]
    rcases hh : fresp.result.head? with _ | rec
    · rw [hh] at hdns
      obtain ⟨e, he⟩ := hdns
      simp only [hh, setupDnsPhase, serviceCreateDnsRecord, he]
      obtain ⟨hmem, hworld⟩ := compensation_branch env ⟨env.accounts, env.zones⟩
        aid cresp.result.id _ _ _ hcache
      exact ⟨trivial, hmem, hworld⟩
    · rw [hh] at hdns
      obtain ⟨e, he⟩ := hdns
      simp only [hh, setupDnsPhase, serviceUpdateDnsRecord, he]
      obtain ⟨hmem, hworld⟩ := compensation_branch env ⟨env.accounts, env.zones⟩
        aid cresp.result.id _ _ _ hcache
      exact ⟨trivial, hmem, hworld⟩

/-- The successful environment, except that the ingress configuration is
rejected by the remote system. -/
def ingressFailEnv : SetupEnv :=
  { okEnv with
    ingress := Raw.resp ⟨false, [⟨1001, "ingress rejected"⟩], [], ()⟩ }

/-- Witness for C3: a concrete run whose ingress PUT is rejected after the
tunnel was created. -/
theorem setup_midfailure_compensation_witness :
    (setupCloudflareTunnel {} ingressFailEnv ⟨[]⟩).outcome = .exit 1 ∧
    ApiCall.deleteTunnel "acc1" "tun1" ∈ (setupCloudflareTunnel {} ingressFailEnv ⟨[]⟩).trace ∧
    (∀ u, request ingressFailEnv.tunnelDelete = .ok u →
      "tun1" ∉
        (serviceListTunnels (setupCloudflareTunnel {} ingressFailEnv ⟨[]⟩).world).map Tunnel.id) :=
  setup_midfailure_compensation {} ingressFailEnv ⟨[]⟩
    ⟨true, [], [], [⟨"zone1", "example.com", "active", ⟨"acc1", "Acme"⟩⟩]⟩
    ⟨true, [], [], []⟩ "acc1"
    ⟨"zone1", "example.com", "active", ⟨"acc1", "Acme"⟩⟩
    ⟨true, [], [], ⟨"tun1", "n8n-host-ab12", ⟨"acc1", "tun1", "n8n-host-ab12", "s3cret"⟩⟩⟩
    rfl rfl rfl (by simp) rfl rfl (Or.inl rfl) rfl
    (Or.inl ⟨.remote "Cloudflare API error: ingress rejected", rfl⟩)

/-- Whether a call deletes a DNS record. -/
def ApiCall.isDnsDelete : ApiCall → Bool
  | .deleteDns _ _ => true
  | _ => false

/-- Whether a call creates a DNS record. -/
def ApiCall.isDnsCreate : ApiCall → Bool
  | .createDns _ _ _ => true
  | _ => false

theorem all_not_dnsdelete_of_reads {l : List ApiCall}
    (h : (l.all fun c => !c.isMutation) = true) :
    (l.all fun c => !c.isDnsDelete) = true := by
  rw [List.all_eq_true] at h ⊢
  intro c hc
  have h2 := h c hc
  cases c <;> simp_all [ApiCall.isMutation, ApiCall.isDnsDelete]

theorem all_not_dnscreate_of_reads {l : List ApiCall}
    (h : (l.all fun c => !c.isMutation) = true) :
    (l.all fun c => !c.isDnsCreate) = true := by
  rw [List.all_eq_true] at h ⊢
  intro c hc
  have h2 := h c hc
  cases c <;> simp_all [ApiCall.isMutation, ApiCall.isDnsCreate]

/-- C9. End-to-end happy run with zone `example.com` and subdomain `n8n`:
the returned config's hostname is exactly `n8n.example.com`; the ingress
PUT carries exactly that hostname in its hostname rule; the config's
`dnsRecordId` is the id from the DNS create response, or — when a record
already existed — that record's own id, reached by an in-place update with
no DNS delete and no DNS create. -/
theorem setup_end_to_end_run (opts : InstallOptions) (env : SetupEnv) (w0 : World)
    (zresp : CfResponse (List Zone)) (fresp : CfResponse (List DnsRecord))
    (aid : String) (zone : Zone) (cresp : CfResponse TunnelCreateResult)
    (tresp : CfResponse String) (dresp : CfResponse DnsRecord)
    (uresp iresp : CfResponse Unit)
    (hv : validateToken env.verify = true)
    (hacc : (getAccountId ⟨env.accounts, env.zones⟩ ⟨none⟩).res = .ok aid)
    (hz : request env.zones = .ok zresp)
    (hzne : zresp.result ≠ [])
    (hsel : selectZone opts.domain zresp.result env.zoneIndex = some zone)
    (hf : request env.dnsFind = .ok fresp)
    (hzname : zone.name = "example.com")
    (hsub : subdomainChoice opts env = "n8n")
    (hconf : env.confirmUpdate = true)
    (hcreate : request env.createTunnel = .ok cresp)
    (hing : request env.ingress = .ok iresp)
    (htok : request env.tunnelToken = .ok tresp)
    (hdc : request env.dnsCreate = .ok dresp)
    (hdu : request env.dnsUpdate = .ok uresp) :
    ∃ cfg, (setupCloudflareTunnel opts env w0).outcome = .ok cfg ∧
      cfg.hostname = "n8n.example.com" ∧
      ApiCall.putIngress aid cresp.result.id
        (ingressRules "n8n.example.com" "http://n8n:5678")
        ∈ (setupCloudflareTunnel opts env w0).trace ∧
      ((setupCloudflareTunnel opts env w0).trace.all fun c => !c.isDnsDelete) = true ∧
      (∀ rec, fresp.result.head? = some rec →
        cfg.dnsRecordId = rec.id ∧
        ApiCall.updateDns zone.id rec.id "n8n" (cresp.result.id ++ ".cfargotunnel.com")
          ∈ (setupCloudflareTunnel opts env w0).trace ∧
        ((setupCloudflareTunnel opts env w0).trace.all fun c => !c.isDnsCreate) = true) ∧
      (fresp.result.head? = none → cfg.dnsRecordId = dresp.result.id) := by
  have hcache : (getAccountId ⟨env.accounts, env.zones⟩ ⟨none⟩).st.accountId = some aid :=
    getAccountId_ok_caches _ _ _ hacc
  have hreads := getAccountId_calls_reads ⟨env.accounts, env.zones⟩ ⟨none⟩
  have hhost : ("n8n" : String) ++ "." ++ "example.com" = "n8n.example.com" := rfl
  rw [setup_reaches_gate opts env w0 zresp fresp aid zone hv hacc hz hzne hsel hf]
  rw [hsub, hzname, hhost]
  have hgatecond : (fresp.result.head?.isSome && !env.confirmUpdate) = false := by
    simp [hconf]
  simp only [setupGatePhase, hgatecond, Bool.false_eq_true, if_false]
  simp only [setupCreatePhase,
    serviceCreateTunnel_cached_ok ⟨env.accounts, env.zones⟩ env.createTunnel
      env.tunnelName _ w0 aid cresp hcache hcreate]
  simp only [setupIngressPhase, hzname, hhost,
    serviceConfigureIngress_cached ⟨env.accounts, env.zones⟩ env.ingress
      cresp.result.id "n8n.example.com" "http://n8n:5678" _ _ aid hcache]
  simp only [hing, Except.map]
  simp only [setupTokenPhase,
    serviceGetTunnelToken_cached ⟨env.accounts, env.zones⟩ env.tunnelToken
      cresp.result.id _ _ aid hcache]
  simp only [htok, Except.map]
  rcases hh : fresp.result.head? with _ | rec
  · simp only [hh, setupDnsPhase, serviceCreateDnsRecord, hdc, hzname, hhost]
    refine ⟨_, rfl, rfl, ?_, ?_, ?_, ?_⟩
    · simp [List.mem_append]
    · have hdel := List.all_eq_true.mp (all_not_dnsdelete_of_reads hreads)
      simp [List.all_append, List.all_cons, ApiCall.isDnsDelete]
      intro x hx
      have h2 := hdel x hx
      cases x <;> simp_all [ApiCall.isDnsDelete]
    · intro rec hrec
      simp at hrec
    · intro _
      rfl
  · simp only [hh, setupDnsPhase, serviceUpdateDnsRecord, hdu, hzname, hhost]
    refine ⟨_, rfl, rfl, ?_, ?_, ?_, ?_⟩
    · simp [List.mem_append]
    · have hdel := List.all_eq_true.mp (all_not_dnsdelete_of_reads hreads)
      simp [List.all_append, List.all_cons, ApiCall.isDnsDelete]
      intro x hx
      have h2 := hdel x hx
      cases x <;> simp_all [ApiCall.isDnsDelete]
    · intro rec2 hrec
      have hr2 : rec2 = rec := (Option.some_inj.mp hrec).symm
      subst hr2
      refine ⟨rfl, ?_, ?_⟩
      · simp [List.mem_append]
      · have hcrt := List.all_eq_true.mp (all_not_dnscreate_of_reads hreads)
        simp [List.all_append, List.all_cons, ApiCall.isDnsCreate]
        intro x hx
        have h2 := hcrt x hx
        cases x <;> simp_all [ApiCall.isDnsCreate]
    · intro hnone
      simp at hnone

/-- Witness for C9: the fully successful environment (no pre-existing
record), with zone `example.com` and subdomain `n8n`. -/
theorem setup_end_to_end_run_witness :
    ∃ cfg, (setupCloudflareTunnel {} okEnv ⟨[]⟩).outcome = .ok cfg ∧
      cfg.hostname = "n8n.example.com" ∧
      ApiCall.putIngress "acc1" "tun1"
        (ingressRules "n8n.example.com" "http://n8n:5678")
        ∈ (setupCloudflareTunnel {} okEnv ⟨[]⟩).trace ∧
      ((setupCloudflareTunnel {} okEnv ⟨[]⟩).trace.all fun c => !c.isDnsDelete) = true ∧
      (∀ rec, (⟨true, [], [], ([] : List DnsRecord)⟩ : CfResponse (List DnsRecord)).result.head? = some rec →
        cfg.dnsRecordId = rec.id ∧
        ApiCall.updateDns "zone1" rec.id "n8n" ("tun1" ++ ".cfargotunnel.com")
          ∈ (setupCloudflareTunnel {} okEnv ⟨[]⟩).trace ∧
        ((setupCloudflareTunnel {} okEnv ⟨[]⟩).trace.all fun c => !c.isDnsCreate) = true) ∧
      ((⟨true, [], [], ([] : List DnsRecord)⟩ : CfResponse (List DnsRecord)).result.head? = none →
        cfg.dnsRecordId = "rec1") :=
  setup_end_to_end_run {} okEnv ⟨[]⟩
    ⟨true, [], [], [⟨"zone1", "example.com", "active", ⟨"acc1", "Acme"⟩⟩]⟩
    ⟨true, [], [], []⟩ "acc1"
    ⟨"zone1", "example.com", "active", ⟨"acc1", "Acme"⟩⟩
    ⟨true, [], [], ⟨"tun1", "n8n-host-ab12", ⟨"acc1", "tun1", "n8n-host-ab12", "s3cret"⟩⟩⟩
    ⟨true, [], [], "eyJ-token"⟩
    ⟨true, [], [], ⟨"rec1", "n8n.example.com", "CNAME", "tun1.cfargotunnel.com", true⟩⟩
    ⟨true, [], [], ()⟩ ⟨true, [], [], ()⟩
    rfl rfl rfl (by simp) rfl rfl rfl rfl rfl rfl rfl rfl rfl rfl

/-! ## The install command up to the tunnel phase (commands/install.ts) -/

/-- How a run of the install command ends, up to and including step 5. -/
inductive InstallOutcome where
  | exit (code : Nat)
  | crash (e : Err)
  | tunnelProvisioned (cfg : TunnelConfig)
  | localConfigured
deriving Repr, DecidableEq

/-- Steps 1 through 5 of the install command: the runtime gate, the
already-installed check (warning no-op only with `--local`), the port check
and image pull (both skipped when adding a tunnel to an existing
installation), then the Cloudflare tunnel phase unless `--local`. -/
def installUpToTunnel (opts : InstallOptions)
    (runtimeOk composeExists envFileExists portFree pullOk : Bool)
    (env : SetupEnv) (w0 : World) : InstallOutcome × World × List ApiCall :=
  if !runtimeOk then (.exit 1, w0, [])
  else
    let alreadyInstalled := composeExists && envFileExists
    let useTunnel := !opts.localOnly
    let addingTunnelToExisting := alreadyInstalled && useTunnel && !opts.force
    if alreadyInstalled && opts.localOnly && !opts.force then (.exit 0, w0, [])
    else if !addingTunnelToExisting && !portFree then (.exit 1, w0, [])
    else if !addingTunnelToExisting && !pullOk then (.exit 1, w0, [])
    else if useTunnel then
      let r := setupCloudflareTunnel opts env w0
      match r.outcome with
      | .ok cfg => (.tunnelProvisioned cfg, r.world, r.trace)
      | .exit c => (.exit c, r.world, r.trace)
      | .crash e => (.crash e, r.world, r.trace)
    else (.localConfigured, w0, [])

/-- C2 counterexample: with `--force` cleared, `--local` cleared, and an
already-complete installation (compose file and env file present), the run
is not a no-op — it enters the tunnel phase, issues remote API calls
(including the tunnel create), and a tunnel comes into existence. -/
theorem install_noforce_not_noop_counterexample :
    ({} : InstallOptions).force = false ∧
    ({} : InstallOptions).localOnly = false ∧
    (installUpToTunnel {} true true true true true okEnv ⟨[]⟩).2.2 ≠ [] ∧
    ApiCall.createTunnel "acc1" "n8n-host-ab12"
      ∈ (installUpToTunnel {} true true true true true okEnv ⟨[]⟩).2.2 ∧
    ((installUpToTunnel {} true true true true true okEnv ⟨[]⟩).2.1.tunnels.map
      Tunnel.id) = ["tun1"] := by
  refine ⟨rfl, rfl, ?_, ?_, ?_⟩ <;> decide

/-- C2 (amended). With `--force` cleared and `--local` set on an
already-complete installation, the install command is a warning no-op: it
exits with code 0 before any provisioning, no remote API call is made, no
tunnel is created. Without `--local` the same situation instead proceeds
into the tunnel phase (see the counterexample). -/
theorem install_noforce_local_noop (opts : InstallOptions)
    (portFree pullOk : Bool) (env : SetupEnv) (w0 : World)
    (hforce : opts.force = false) (hlocal : opts.localOnly = true) :
    installUpToTunnel opts true true true portFree pullOk env w0 =
      (.exit 0, w0, []) := by
  simp [installUpToTunnel, hforce, hlocal]

/-- Witness for the amended C2 at concrete inputs. -/
theorem install_noforce_local_noop_witness :
    installUpToTunnel { localOnly := true } true true true true true okEnv ⟨[]⟩ =
      (.exit 0, ⟨[]⟩, []) :=
  install_noforce_local_noop { localOnly := true } true true okEnv ⟨[]⟩ rfl rfl

/-! ## The uninstall teardown (spec section 4.4, Teardown Compensator) -/

/-- Remote responses of the two teardown endpoints. -/
structure TeardownEnv where
  dnsDelete : Raw Unit
  tunnelDelete : Raw Unit
deriving Repr

/-- `deleteTunnel` at the wire level for a caller that already holds the
account id, as the persisted config does. -/
def deleteTunnelWire (raw : Raw Unit) (accountId tunnelId : String) :
    Except Err Unit × List ApiCall :=
  match request raw with
  | .error e => (.error e, [.deleteTunnel accountId tunnelId])
  | .ok _ => (.ok (), [.deleteTunnel accountId tunnelId])

/-- Modelled from the spec: the uninstall teardown of a persisted
`TunnelConfig` (spec section 4.4, Teardown Compensator). The repository
snapshot carries only a stale copy of the uninstall command that predates
cloud-resource deletion — the CLI dispatch invokes the current uninstall
with a `yes` option documented as auto-confirming cloud resource deletion
(FR-7.1, FR-7.2, FR-7.5 of the requirements), which that stale copy does
not accept — so the teardown orchestration is taken from the spec's words:
delete the DNS record, then delete the tunnel, each attempted
independently, each failure reported without preventing the other. The
deletions themselves are the `deleteDnsRecord` and `deleteTunnel` service
calls of services/cloudflare.ts. -/
def uninstallTeardown (env : TeardownEnv) (cfg : TunnelConfig) :
    List Err × List ApiCall :=
  let dns := serviceDeleteDnsRecord env.dnsDelete cfg.zoneId cfg.dnsRecordId
  let tun := deleteTunnelWire env.tunnelDelete cfg.accountId cfg.tunnelId
  ((match dns.1 with | .error e => [e] | .ok _ => []) ++
   (match tun.1 with | .error e => [e] | .ok _ => []),
   dns.2 ++ tun.2)

/-- C1. Uninstall teardown: for every persisted config both deletions are
attempted — the DNS delete and the tunnel delete both appear in the trace
whatever the outcomes; a failure of either is reported among the returned
failures while the other deletion is still attempted; and no failure is
reported exactly when both deletions succeeded. -/
theorem uninstallTeardown_independent :
    ∀ (env : TeardownEnv) (cfg : TunnelConfig),
      ApiCall.deleteDns cfg.zoneId cfg.dnsRecordId ∈ (uninstallTeardown env cfg).2 ∧
      ApiCall.deleteTunnel cfg.accountId cfg.tunnelId ∈ (uninstallTeardown env cfg).2 ∧
      (∀ e, request env.dnsDelete = .error e →
        e ∈ (uninstallTeardown env cfg).1 ∧
        ApiCall.deleteTunnel cfg.accountId cfg.tunnelId ∈ (uninstallTeardown env cfg).2) ∧
      (∀ e, request env.tunnelDelete = .error e →
        e ∈ (uninstallTeardown env cfg).1 ∧
        ApiCall.deleteDns cfg.zoneId cfg.dnsRecordId ∈ (uninstallTeardown env cfg).2) ∧
      ((uninstallTeardown env cfg).1 = [] ↔
        (∃ u, request env.dnsDelete = .ok u) ∧
        (∃ u, request env.tunnelDelete = .ok u)) := by
  intro env cfg
  rcases hd : request env.dnsDelete with ed | ud <;>
    rcases ht : request env.tunnelDelete with et | ut <;>
      simp_all [uninstallTeardown, serviceDeleteDnsRecord, deleteTunnelWire, hd, ht]

/-- Witness for C1: the DNS delete fails remotely, the tunnel delete
succeeds; the tunnel deletion is still attempted and the DNS failure is
reported. -/
theorem uninstallTeardown_independent_witness :
    (ApiCall.deleteTunnel "acc1" "tun1" ∈
      (uninstallTeardown
        ⟨Raw.resp ⟨false, [⟨81044, "Record does not exist"⟩], [], ()⟩,
         Raw.resp ⟨true, [], [], ()⟩⟩
        ⟨"tok", "acc1", "zone1", "example.com", "tun1", "n8n-host-ab12",
         "eyJ-token", "n8n.example.com", "rec1"⟩).2) ∧
    Err.remote "Cloudflare API error: Record does not exist" ∈
      (uninstallTeardown
        ⟨Raw.resp ⟨false, [⟨81044, "Record does not exist"⟩], [], ()⟩,
         Raw.resp ⟨true, [], [], ()⟩⟩
        ⟨"tok", "acc1", "zone1", "example.com", "tun1", "n8n-host-ab12",
         "eyJ-token", "n8n.example.com", "rec1"⟩).1 :=
  by
  have h := (uninstallTeardown_independent
      ⟨Raw.resp ⟨false, [⟨81044, "Record does not exist"⟩], [], ()⟩,
       Raw.resp ⟨true, [], [], ()⟩⟩
      ⟨"tok", "acc1", "zone1", "example.com", "tun1", "n8n-host-ab12",
       "eyJ-token", "n8n.example.com", "rec1"⟩).2.2.1
    (Err.remote "Cloudflare API error: Record does not exist") rfl
  exact ⟨h.2, h.1⟩

end N8n
